import Mathlib

/-!
Shallow embedding of `src/ModalFormPage.tsx`: a React page with a trigger
button, a modal `<dialog>` containing a validated application form
(react-hook-form), a focus trap on Tab, and focus restoration on close.

Conventions of the embedding:
* DOM elements that matter for focus are `FocusTarget`s; `document.activeElement`
  is an `Option FocusTarget` (`none` = null).
* JavaScript strict equality between a possibly-null element and a possibly
  `undefined` element is `strictEq` (null === undefined is false).
* The regexes registered on the email and github fields are translated to
  executable matchers over the character list, following the regex text
  `^[^\s@]+@[^\s@]+\.[^\s@]+$` and
  `^https:\/\/(www\.)?github\.com\/[a-zA-Z0-9-]+\/?.*$` respectively.
* React's render/effect cycle is one `commit` step run after each event
  handler: re-render (mount/unmount the dialog node), then cleanup of the
  previous effect, then the new effect body, exactly when the `[isModalOpen]`
  dependency changed.
-/

namespace ModalForm

/-- Identifier constants from the top of `ModalFormPage.tsx`. -/
def MODAL_TITLE : String := "modal-title"

def MODAL_DESCRIPTION : String := "modal-description"

def ERROR_NAME : String := "error-name"

def ERROR_EMAIL : String := "error-email"

def ERROR_EXPERIENCE : String := "error-experience"

def ERROR_GITHUB : String := "error-github"

/-- The CSS selector used by `handleTabKey` to query focusable descendants. -/
def focusableSelector : String := "[tabindex=\x220\x22], [href], input, select, button"

/-- `tabIndex={0}` on the `ModalTitle` element (line 295 of the source). -/
def modalTitleTabIndex : Int := 0

/-! ### Field validation rules (react-hook-form `register` options) -/

/-- Validation messages, verbatim from the `register` calls. -/
def nameRequiredMsg : String := "이름을 입력해주세요"

def nameMinLengthMsg : String := "최소 2글자 이상 입력해주세요"

def emailRequiredMsg : String := "이메일을 입력해주세요"

def emailPatternMsg : String := "올바른 이메일 형식으로 입력해주세요"

def experienceRequiredMsg : String := "FE 경력 연차를 선택해주세요"

def githubPatternMsg : String := "올바른 Github URL 형식으로 입력해주세요"

/-- JavaScript's `\s` character class (WhiteSpace ∪ LineTerminator). -/
def isJsWhitespace (c : Char) : Bool :=
  c = ' ' || c = '\t' || c = '\n' || c = '\r' || c = '\x0b' || c = '\x0c' ||
  c = ' ' || c = ' ' || (' ' ≤ c && c ≤ ' ') ||
  c = ' ' || c = ' ' || c = ' ' || c = ' ' ||
  c = '　' || c = '﻿'

/-- A character admitted by the `[^\s@]` class of the email regex. -/
def isEmailChar (c : Char) : Bool := c ≠ '@' && !(isJsWhitespace c)

/-- Split a character list at the first occurrence of `t`
(`none` when `t` does not occur). -/
def breakAt (t : Char) : List Char → Option (List Char × List Char)
  | [] => none
  | c :: cs =>
    if c = t then some ([], cs)
    else (breakAt t cs).map (fun p => (c :: p.1, p.2))

/-- Does the list contain a `'.'` that is not its last element? -/
def dotNotLast : List Char → Bool
  | [] => false
  | [_] => false
  | c :: cs => c = '.' || dotNotLast cs

/-- Does the list decompose as `d ++ '.' :: t` with `d` and `t` nonempty?
This is what `[^\s@]+\.[^\s@]+` requires of the part after the `'@'`,
given that every character of the list is already an email character. -/
def hasInteriorDot : List Char → Bool
  | [] => false
  | _ :: cs => dotNotLast cs

/-- The email regex `^[^\s@]+@[^\s@]+\.[^\s@]+$`: a nonempty run of
email characters, one `'@'`, then a nonempty run containing a `'.'` with
nonempty runs on both sides.  Because `[^\s@]` excludes `'@'`, splitting at
the first `'@'` and requiring the remainder to be `'@'`-free is exact. -/
def emailMatches (s : String) : Bool :=
  match breakAt '@' s.toList with
  | none => false
  | some (l, r) =>
    !l.isEmpty && l.all isEmailChar && r.all isEmailChar && hasInteriorDot r

/-- The `[a-zA-Z0-9-]` class of the github regex. -/
def isHandleChar (c : Char) : Bool :=
  ('a' ≤ c && c ≤ 'z') || ('A' ≤ c && c ≤ 'Z') || ('0' ≤ c && c ≤ '9') || c = '-'

/-- A JavaScript regex line terminator: the characters `.` does not match. -/
def isLineTerm (c : Char) : Bool :=
  c = '\n' || c = '\r' || c = ' ' || c = ' '

/-- Strip a literal character-list prefix, or fail. -/
def stripPre : List Char → List Char → Option (List Char)
  | [], s => some s
  | _ :: _, [] => none
  | a :: p, b :: s => if a = b then stripPre p s else none

/-- After `github.com/` the regex demands `[a-zA-Z0-9-]+\/?.*$`: at least one
handle character, and (taking the one-character instantiation of the plus and
letting `.*` absorb the rest) every remaining character must be matchable by
`.`, i.e. not a line terminator. -/
def githubTail (t : List Char) : Bool :=
  match t with
  | [] => false
  | c :: rest => isHandleChar c && rest.all (fun d => !(isLineTerm d))

/-- The github regex `^https:\/\/(www\.)?github\.com\/[a-zA-Z0-9-]+\/?.*$`,
with the optional `(www\.)?` group tried both ways (regex backtracking). -/
def githubMatches (s : String) : Bool :=
  match stripPre "https://".toList s.toList with
  | none => false
  | some r =>
    (match stripPre "www.".toList r with
     | some r2 =>
       match stripPre "github.com/".toList r2 with
       | some t => githubTail t
       | none => false
     | none => false) ||
    (match stripPre "github.com/".toList r with
     | some t => githubTail t
     | none => false)

/-- The form record of `useForm<FormData>`; the optional `github` field is
registered with default value `""`, so it is modelled as a `String`. -/
structure FormData where
  name : String
  email : String
  experience : String
  github : String
deriving DecidableEq, Repr

/-- `defaultValues` passed to `useForm`. -/
def defaultValues : FormData := ⟨"", "", "", ""⟩

/-- `register("name", { required, minLength: 2 })`.  react-hook-form checks
`required` first (fails on the empty string), then `minLength` against the
value's length. -/
def validateName (v : String) : Option String :=
  if v = "" then some nameRequiredMsg
  else if v.length < 2 then some nameMinLengthMsg
  else none

/-- `register("email", { required, pattern })`. -/
def validateEmail (v : String) : Option String :=
  if v = "" then some emailRequiredMsg
  else if emailMatches v then none
  else some emailPatternMsg

/-- `register("experience", { required })`: the placeholder option has value
`""`, the three buckets are `"0-3"`, `"4-7"`, `"8+"`. -/
def validateExperience (v : String) : Option String :=
  if v = "" then some experienceRequiredMsg else none

/-- `register("github", { pattern })`: no `required` rule, and react-hook-form
skips `pattern` on an empty value, so the empty string passes. -/
def validateGithub (v : String) : Option String :=
  if v = "" then none
  else if githubMatches v then none
  else some githubPatternMsg

/-- The per-field error state produced by a submit attempt
(`formState.errors`): at most one message per field. -/
structure FormErrors where
  name : Option String
  email : Option String
  experience : Option String
  github : Option String
deriving DecidableEq, Repr

/-- No errors (the state after `reset()` and the initial state). -/
def noErrors : FormErrors := ⟨none, none, none, none⟩

/-- Evaluate all four registered rule sets, as `handleSubmit` does. -/
def validateAll (f : FormData) : FormErrors :=
  ⟨validateName f.name, validateEmail f.email,
   validateExperience f.experience, validateGithub f.github⟩

/-- Does any field carry an error? -/
def hasErrors (e : FormErrors) : Bool :=
  e.name.isSome || e.email.isSome || e.experience.isSome || e.github.isSome

/-! ### Focus targets and the Tab-key focus trap -/

/-- The DOM elements relevant to focus.  `elem i` stands for the `i`-th
focusable descendant returned by the `querySelectorAll` inside the dialog
content (inputs, the select, the buttons, the `tabIndex={0}` title). -/
inductive FocusTarget where
  | body
  | openButton
  | modalTitle
  | elem (id : Nat)
deriving DecidableEq, Repr

/-- JavaScript strict equality between `document.activeElement` (an element
or null) and `focusableArray[…]` (an element or `undefined`): true only when
both sides are the same element. -/
def strictEq (a b : Option FocusTarget) : Bool :=
  match a, b with
  | some x, some y => x == y
  | _, _ => false

/-- The outcome of one run of the Tab-key handler: whether
`e.preventDefault()` was called, and the element `.focus()` was called on. -/
structure TabOutcome where
  prevented : Bool
  moved : Option FocusTarget
deriving DecidableEq, Repr

/-- The body of `handleTabKey` (source lines 246-266), given the key's
`shiftKey` flag, the current `document.activeElement`, and the list returned
by `querySelectorAll(focusableSelector)` on the dialog content.
`firstElement`/`lastElement` are `undefined` (`none`) on an empty list;
calling `.focus()` on `undefined` would throw, which the `Except` models. -/
def handleTabKey (shift : Bool) (active : Option FocusTarget)
    (content : List FocusTarget) : Except String TabOutcome :=
  let firstElement := content.head?
  let lastElement := content.getLast?
  if shift && strictEq active firstElement then
    match lastElement with
    | some t => .ok ⟨true, some t⟩
    | none => .error "TypeError: cannot read focus of undefined"
  else if !shift && strictEq active lastElement then
    match firstElement with
    | some t => .ok ⟨true, some t⟩
    | none => .error "TypeError: cannot read focus of undefined"
  else .ok ⟨false, none⟩

/-! ### The modal state machine

One `MState` is a snapshot of everything the component and the page observe:
the React state `isModalOpen`, whether the `<dialog>` node is in the render
tree (`mounted`, driven by the conditional `{isModalOpen && <ModalOverlay…>}`),
the native dialog's `open` attribute (`openAttr`, false when no dialog is
mounted), the number of installed document-level keydown listeners, the
focused element, the form store and error state, and the log of payloads the
submit callback has received (the `console.log` in `onSubmit`). -/

structure MState where
  isOpen : Bool
  mounted : Bool
  openAttr : Bool
  listeners : Nat
  focused : FocusTarget
  fields : FormData
  errors : FormErrors
  submitted : List FormData
deriving DecidableEq, Repr

/-- The body of the `useEffect` (source lines 242-275): when `isModalOpen`
is true, focus the title and install the document keydown listener; when it
is false, focus the open button (and install nothing). -/
def runEffectBody (s : MState) : MState :=
  if s.isOpen then
    { s with focused := .modalTitle, listeners := s.listeners + 1 }
  else
    { s with focused := .openButton }

/-- React's commit after an event handler: if the `[isModalOpen]` dependency
changed, re-render (mount a fresh dialog node with `open` attribute false, or
unmount it), run the cleanup of the previous effect (which removes the
listener exactly when the previous run took the open branch), then run the
effect body; if the dependency is unchanged, neither cleanup nor effect runs. -/
def commit (s : MState) : MState :=
  if s.mounted == s.isOpen then s
  else
    runEffectBody
      { s with
        mounted := s.isOpen,
        openAttr := false,
        listeners := if s.mounted then s.listeners - 1 else s.listeners }

/-- The page before React mounts the component: nothing rendered, focus on
the document body. -/
def preMount : MState :=
  ⟨false, false, false, 0, .body, defaultValues, noErrors, []⟩

/-- The state right after the first mount: the effect runs once with
`isModalOpen = false` (no previous effect to clean up), taking the else
branch, which focuses the open button. -/
def mounted0 : MState := runEffectBody preMount

/-- `openModal` (source lines 213-217): `setIsModalOpen(true)`, then
`modalRef.current?.showModal()`, then `reset()`.  At this point React has not
re-rendered, so `modalRef.current` is the dialog of the *last* commit: when
the modal was closed it is null and the optional chain skips `showModal`.
`reset()` restores `defaultValues` and clears the error state. -/
def openModal (s : MState) : MState :=
  let s1 := { s with isOpen := true }
  let s2 := if s1.mounted then { s1 with openAttr := true } else s1
  { s2 with fields := defaultValues, errors := noErrors }

/-- `closeModal` (source lines 219-222): `setIsModalOpen(false)`, then
`modalRef.current?.close()` (a real call while the dialog is still mounted). -/
def closeModal (s : MState) : MState :=
  let s1 := { s with isOpen := false }
  if s1.mounted then { s1 with openAttr := false } else s1

/-- `handleSubmit(onSubmit)`: evaluate every registered rule on the current
values; on any failure publish the per-field errors and do not call
`onSubmit`; on success call `onSubmit(data)`, which logs the payload and
calls `closeModal()`. -/
def submitHandler (s : MState) : MState :=
  let errs := validateAll s.fields
  if hasErrors errs then commit { s with errors := errs }
  else
    commit (closeModal
      { s with errors := errs, submitted := s.submitted ++ [s.fields] })

/-- The document-level keydown listener reacting to a Tab press: it only
exists while installed, guards on `modalContentRef.current` being non-null,
and applies `handleTabKey` to the focusables queried at that moment. -/
def tabDispatch (s : MState) (shift : Bool) (content : List FocusTarget) :
    MState :=
  if s.listeners == 0 then s
  else if !s.mounted then s
  else
    match handleTabKey shift (some s.focused) content with
    | .ok r =>
      match r.moved with
      | some t => { s with focused := t }
      | none => s
    | .error _ => s

/-- The user-visible events.  `tabKeyDown` carries the result of the
`querySelectorAll` on the dialog content at the moment of the press. -/
inductive Ev where
  | clickOpen
  | clickCancel
  | pressEscape
  | backdropClick
  | contentClick
  | setFields (f : FormData)
  | submitForm
  | tabKeyDown (shift : Bool) (content : List FocusTarget)

/-- One event step: run the relevant handler, then React's `commit`.
Guards model where each handler is attached: the open button is unreachable
behind the full-viewport overlay while the dialog is mounted; the cancel
button, the dialog's own `onKeyDown` (Escape), the overlay `onClick`
(backdrop) and the form only exist while the dialog is mounted; a click on
the inner content calls `e.stopPropagation()` and never reaches the overlay
handler. -/
def stepE (s : MState) : Ev → MState
  | .clickOpen => if s.mounted then s else commit (openModal s)
  | .clickCancel => if s.mounted then commit (closeModal s) else s
  | .pressEscape => if s.mounted then commit (closeModal s) else s
  | .backdropClick => if s.mounted then commit (closeModal s) else s
  | .contentClick => s
  | .setFields f => if s.mounted then { s with fields := f } else s
  | .submitForm => if s.mounted then submitHandler s else s
  | .tabKeyDown shift content => tabDispatch s shift content

/-- Component teardown: React unmounts the tree and runs the cleanup of the
last effect run, which removes the listener exactly when that run took the
open branch. -/
def unmountComponent (s : MState) : MState :=
  { s with
    mounted := false, openAttr := false,
    listeners := if s.mounted then s.listeners - 1 else s.listeners }

/-- The states reachable from the freshly mounted page. -/
inductive Reach : MState → Prop where
  | base : Reach mounted0
  | next : ∀ s e, Reach s → Reach (stepE s e)

/-- The inductive invariant of the machine: the dialog node is in the render
tree exactly when `isOpen` is true; the native `open` attribute is *always*
false (`showModal` only ever runs through a null ref); and exactly one
listener is installed while open, none while closed. -/
def Inv (s : MState) : Prop :=
  s.mounted = s.isOpen ∧ s.openAttr = false ∧
  s.listeners = (if s.isOpen then 1 else 0)

theorem inv_mounted0 : Inv mounted0 := ⟨rfl, rfl, rfl⟩

theorem inv_step (s : MState) (e : Ev) (h : Inv s) : Inv (stepE s e) := by
  obtain ⟨io, mo, oa, ls, fo, fl, er, su⟩ := s
  obtain ⟨h1, h2, h3⟩ := h
  simp only at h1 h2 h3
  subst h1
  subst h2
  cases mo <;> simp at h3 <;> subst h3 <;> cases e
  all_goals try exact ⟨rfl, rfl, rfl⟩
  case submitForm =>
    show Inv (submitHandler ⟨true, true, false, 1, fo, fl, er, su⟩)
    simp only [submitHandler]
    split
    · exact ⟨rfl, rfl, rfl⟩
    · exact ⟨rfl, rfl, rfl⟩
  case tabKeyDown shift content =>
    show Inv (tabDispatch ⟨true, true, false, 1, fo, fl, er, su⟩ shift content)
    simp only [tabDispatch]
    cases hR : handleTabKey shift (some fo) content with
    | ok r =>
      obtain ⟨p, mv⟩ := r
      cases mv <;> exact ⟨rfl, rfl, rfl⟩
    | error msg => exact ⟨rfl, rfl, rfl⟩

theorem inv_of_reach (s : MState) (h : Reach s) : Inv s := by
  induction h with
  | base => exact inv_mounted0
  | next s e _ ih => exact inv_step s e ih

/-- A closed state holding stale field values `f`: open the modal, type `f`
into the form, close with Cancel.  The fields survive the close (only
`open()` resets them). -/
def staleClosed (f : FormData) : MState :=
  stepE (stepE (stepE mounted0 .clickOpen) (.setFields f)) .clickCancel

/-- The Jo Park record of the end-to-end scenario. -/
def joFields : FormData := ⟨"Jo Park", "jo@x.com", "0-3", ""⟩

/-- The open modal with the Jo Park record typed in. -/
def joOpenState : MState :=
  stepE (stepE mounted0 .clickOpen) (.setFields joFields)

/-! ### Claim theorems -/

/-- C1: the dialog surface is in the render tree iff `isOpen` — that part
holds — but the native `open` attribute does NOT agree with `isOpen`: after
`open()` runs from the closed state, `isOpen` is true and the dialog is
mounted, yet its `open` attribute is false, because `showModal` was invoked
through `modalRef.current` while the state-driven render had not yet inserted
the dialog, so the optional chain skipped the call.  This theorem evaluates
the machine at that failing input. -/
theorem c1_open_attribute_drift :
    (stepE mounted0 .clickOpen).isOpen = true ∧
    (stepE mounted0 .clickOpen).mounted = true ∧
    (stepE mounted0 .clickOpen).openAttr = false ∧
    mounted0.isOpen = false ∧ mounted0.mounted = false ∧
    mounted0.openAttr = false :=
  ⟨rfl, rfl, rfl, rfl, rfl, rfl⟩

/-- C2: for every Tab keydown with a nonempty focusable set, Shift+Tab on the
first element prevents default and focuses the last; plain Tab on the last
element prevents default and focuses the first; every other press is left
untouched (no preventDefault, no focus call). -/
theorem c2_tab_wrap (active : Option FocusTarget) (content : List FocusTarget)
    (f l : FocusTarget)
    (hf : content.head? = some f) (hl : content.getLast? = some l) :
    (handleTabKey true active content =
      if active = some f then Except.ok ⟨true, some l⟩
      else Except.ok ⟨false, none⟩) ∧
    (handleTabKey false active content =
      if active = some l then Except.ok ⟨true, some f⟩
      else Except.ok ⟨false, none⟩) := by
  constructor
  · unfold handleTabKey
    rw [hf, hl]
    cases active with
    | none => simp [strictEq]
    | some a =>
      by_cases hA : a = f
      · subst hA
        simp [strictEq]
      · simp [strictEq, hA]
  · unfold handleTabKey
    rw [hf, hl]
    cases active with
    | none => simp [strictEq]
    | some a =>
      by_cases hA : a = l
      · subst hA
        simp [strictEq]
      · simp [strictEq, hA]

/-- Witness for C2 at a concrete two-element content: Tab on the last wraps
to the first. -/
theorem c2_tab_wrap_witness :
    handleTabKey false (some (FocusTarget.elem 1))
      [FocusTarget.elem 0, FocusTarget.elem 1] =
      Except.ok ⟨true, some (FocusTarget.elem 0)⟩ := by
  have h := (c2_tab_wrap (some (FocusTarget.elem 1))
    [FocusTarget.elem 0, FocusTarget.elem 1]
    (FocusTarget.elem 0) (FocusTarget.elem 1) rfl rfl).2
  simpa using h

/-- C3: `open()` does set `isOpen` to true and does reset all four fields to
their defaults regardless of the stale values `f` left from the previous
session — but it does NOT perform the platform show-as-modal operation: the
`showModal` call goes through a dialog ref that is null at that moment, so
the mounted dialog's `open` attribute remains false. -/
theorem c3_open_resets_fields_but_skips_showModal (f : FormData) :
    (staleClosed f).isOpen = false ∧
    (staleClosed f).fields = f ∧
    (stepE (staleClosed f) .clickOpen).isOpen = true ∧
    (stepE (staleClosed f) .clickOpen).fields = defaultValues ∧
    (stepE (staleClosed f) .clickOpen).errors = noErrors ∧
    (stepE (staleClosed f) .clickOpen).openAttr = false :=
  ⟨rfl, rfl, rfl, rfl, rfl, rfl⟩

/-- C4: the dialog title carries `tabIndex={0}`; on every transition from
closed to open the effect focuses the title; and from every reachable open
state, each of the four closing gestures (Cancel, Escape, backdrop click, and
a successful validated submit) returns focus to the trigger button — across
arbitrarily many open/close cycles. -/
theorem c4_focus_on_open_and_close :
    modalTitleTabIndex = 0 ∧
    (∀ s, Reach s → s.isOpen = false →
      (stepE s .clickOpen).focused = .modalTitle) ∧
    (∀ s, Reach s → s.isOpen = true →
      (stepE s .clickCancel).focused = .openButton ∧
      (stepE s .pressEscape).focused = .openButton ∧
      (stepE s .backdropClick).focused = .openButton) ∧
    (∀ s, Reach s → s.isOpen = true →
      hasErrors (validateAll s.fields) = false →
      (stepE s .submitForm).focused = .openButton) := by
  refine ⟨rfl, ?_, ?_, ?_⟩
  · intro s hs h
    obtain ⟨h1, _, _⟩ := inv_of_reach s hs
    have hm : s.mounted = false := h1.trans h
    simp [stepE, hm, openModal, commit, runEffectBody, h]
  · intro s hs h
    obtain ⟨h1, _, _⟩ := inv_of_reach s hs
    have hm : s.mounted = true := h1.trans h
    refine ⟨?_, ?_, ?_⟩ <;>
      simp [stepE, hm, closeModal, commit, runEffectBody, h]
  · intro s hs h hE
    obtain ⟨h1, _, _⟩ := inv_of_reach s hs
    have hm : s.mounted = true := h1.trans h
    simp [stepE, hm, submitHandler, hE, closeModal, commit, runEffectBody, h]

/-- Witness for C4: from the freshly mounted page, opening focuses the title;
closing the resulting state with Cancel refocuses the trigger; and from the
open state filled with the valid Jo Park record, the successful submit also
refocuses the trigger. -/
theorem c4_focus_on_open_and_close_witness :
    (stepE mounted0 .clickOpen).focused = .modalTitle ∧
    (stepE (stepE mounted0 .clickOpen) .clickCancel).focused = .openButton ∧
    (stepE joOpenState .submitForm).focused = .openButton :=
  ⟨c4_focus_on_open_and_close.2.1 mounted0 Reach.base rfl,
   (c4_focus_on_open_and_close.2.2.1 (stepE mounted0 .clickOpen)
      (Reach.next mounted0 .clickOpen Reach.base) rfl).1,
   c4_focus_on_open_and_close.2.2.2 joOpenState
     (Reach.next (stepE mounted0 .clickOpen) (.setFields joFields)
       (Reach.next mounted0 .clickOpen Reach.base))
     rfl (by decide)⟩

/-- C5: in every reachable state exactly one document keydown listener is
installed while the modal is open and none while it is closed (so never more
than one), and tearing the component down releases whatever is held. -/
theorem c5_listener_lifecycle (s : MState) (hs : Reach s) :
    s.listeners = (if s.isOpen then 1 else 0) ∧
    s.listeners ≤ 1 ∧
    (s.isOpen = false → s.listeners = 0) ∧
    (unmountComponent s).listeners = 0 := by
  obtain ⟨h1, _, h3⟩ := inv_of_reach s hs
  refine ⟨h3, ?_, ?_, ?_⟩
  · rw [h3]; split <;> omega
  · intro h; simp [h3, h]
  · cases hio : s.isOpen <;> simp [unmountComponent, h1, h3, hio]

/-- Witness for C5 at the initial state: the modal is closed and no listener
is installed. -/
theorem c5_listener_lifecycle_witness : mounted0.listeners = 0 :=
  (c5_listener_lifecycle mounted0 Reach.base).2.2.1 rfl

/-- C6: with zero focusable elements in the dialog content, the Tab handler
neither throws nor prevents default nor moves focus: `firstElement` and
`lastElement` are `undefined`, strict equality with `document.activeElement`
is false on both branches, so the handler falls through. -/
theorem c6_empty_focusables_noop (shift : Bool) (active : Option FocusTarget) :
    handleTabKey shift active [] = .ok ⟨false, none⟩ := by
  cases shift <;> cases active <;> rfl

/-- C7: a submit attempt from the open modal is gated by validation: if any
field is invalid the modal stays open, the callback log is unchanged, and the
per-field error state is exactly what the rules produce; if all fields are
valid the callback receives exactly the current field record and the modal
transitions to closed. -/
theorem c7_submit_gate (s : MState) (hm : s.mounted = true)
    (hio : s.isOpen = true) :
    (hasErrors (validateAll s.fields) = true →
      (stepE s .submitForm).isOpen = true ∧
      (stepE s .submitForm).mounted = true ∧
      (stepE s .submitForm).submitted = s.submitted ∧
      (stepE s .submitForm).errors = validateAll s.fields) ∧
    (hasErrors (validateAll s.fields) = false →
      (stepE s .submitForm).isOpen = false ∧
      (stepE s .submitForm).mounted = false ∧
      (stepE s .submitForm).submitted = s.submitted ++ [s.fields] ∧
      (stepE s .submitForm).errors = validateAll s.fields) := by
  constructor
  · intro hE
    simp [stepE, hm, submitHandler, hE, commit, hio, closeModal,
      runEffectBody]
  · intro hE
    simp [stepE, hm, submitHandler, hE, closeModal, commit, hio,
      runEffectBody]

/-- Witness for C7, the end-to-end scenario: open, fill the Jo Park record,
submit; the modal closes and the callback received exactly that record. -/
theorem c7_submit_gate_witness :
    joOpenState.fields = joFields ∧
    (stepE joOpenState .submitForm).isOpen = false ∧
    (stepE joOpenState .submitForm).submitted = [joFields] := by
  have h := (c7_submit_gate joOpenState rfl rfl).2 (by decide)
  exact ⟨rfl, h.1, h.2.2.1⟩

/-- C8: a one-character name fails `minLength: 2`, names of length ≥ 2 (such
as "Ana") pass; a string not matching the email regex (such as
"not-an-email") gets the format message, a conforming one ("a@b.co") none. -/
theorem c8_name_email_rules :
    (∀ v : String, v.length = 1 → validateName v = some nameMinLengthMsg) ∧
    validateName "Ana" = none ∧
    (∀ v : String, 2 ≤ v.length → validateName v = none) ∧
    validateEmail "not-an-email" = some emailPatternMsg ∧
    validateEmail "a@b.co" = none := by
  refine ⟨?_, by decide, ?_, by decide, by decide⟩
  · intro v h
    have hv : v ≠ "" := by
      intro hh; subst hh; exact absurd h (by decide)
    unfold validateName
    rw [if_neg hv, if_pos (by omega)]
  · intro v h
    have hv : v ≠ "" := by
      intro hh
      subst hh
      have h0 : ("" : String).length = 0 := rfl
      omega
    unfold validateName
    rw [if_neg hv, if_neg (by omega)]

/-- Witness for C8: the one-character name "A" gets the minimum-length
message. -/
theorem c8_name_email_rules_witness :
    ("A" : String).length = 1 ∧ validateName "A" = some nameMinLengthMsg :=
  ⟨by decide, c8_name_email_rules.1 "A" (by decide)⟩

/-- C9: the unset experience (empty default) fails `required` while each of
the three buckets passes; the empty github passes (optional), a non-GitHub
URL gets the format message, a conforming profile URL passes. -/
theorem c9_experience_github_rules :
    validateExperience "" = some experienceRequiredMsg ∧
    validateExperience "0-3" = none ∧
    validateExperience "4-7" = none ∧
    validateExperience "8+" = none ∧
    validateGithub "" = none ∧
    validateGithub "https://gitlab.com/x" = some githubPatternMsg ∧
    validateGithub "https://github.com/alice" = none := by decide

/-- C10: on the very first mount, before any `open()`, the effect's closed
branch runs and moves focus from the document body to the trigger button. -/
theorem c10_first_mount_focuses_trigger :
    preMount.focused = .body ∧ preMount.isOpen = false ∧
    mounted0.focused = .openButton ∧ mounted0.isOpen = false ∧
    mounted0.submitted = [] :=
  ⟨rfl, rfl, rfl, rfl, rfl⟩

end ModalForm
